import Mathlib

set_option autoImplicit false

namespace NyosApr

/-!
Shallow embedding of the NYOS-APR front-end analytics and chat components:
the view-model derivations of src/frontend/src/components/Analytics.jsx,
the chat session operations of src/frontend/src/components/Chat.jsx, and
the HTTP/stream client of the api module (src/unnamed/part_000).

JSON numbers are modelled as rationals, absent or null fields as Option,
and the relevant JavaScript truthiness coercions are made explicit:
for a number, 0 is falsy; for a string, the empty string is falsy;
for an object or id, null/undefined is falsy.
-/

/-- Embedding of the JavaScript expression `x || 0` on an optional number:
undefined/null and 0 are falsy, everything else passes through. -/
def jsOrZero (x : Option ℚ) : ℚ :=
  match x with
  | none => 0
  | some v => if v = 0 then 0 else v

/-- Embedding of the JavaScript expression `x || d` on an optional string:
undefined/null and the empty string are falsy. -/
def jsOrStr (x : Option String) (d : String) : String :=
  match x with
  | none => d
  | some s => if s = "" then d else s

/-!
Period-comparison delta presentation, Analytics.jsx lines 446-471.
Each definition is the conditional class expression of one of the four
delta tiles in the Evolution panel.
-/

/-- Class chosen for the batches delta tile: the source reads
comparison.changes?.batches_pct >= 0 ? text-green-600 : text-red-600. -/
def batchesDeltaClass (p : ℚ) : String :=
  if 0 ≤ p then "text-green-600" else "text-red-600"

/-- Class chosen for the yield delta tile: the source reads
comparison.changes?.yield_pct >= 0 ? text-green-600 : text-red-600. -/
def yieldDeltaClass (p : ℚ) : String :=
  if 0 ≤ p then "text-green-600" else "text-red-600"

/-- Class chosen for the hardness delta tile: the source reads
comparison.changes?.hardness_pct >= 0 ? text-blue-600 : text-blue-600,
so both branches yield the same neutral class. -/
def hardnessDeltaClass (p : ℚ) : String :=
  if 0 ≤ p then "text-blue-600" else "text-blue-600"

/-- Class chosen for the complaints delta tile: the source reads
comparison.changes?.complaints_pct <= 0 ? text-green-600 : text-red-600. -/
def complaintsDeltaClass (p : ℚ) : String :=
  if p ≤ 0 then "text-green-600" else "text-red-600"

/-!
Radar chart derivation, Analytics.jsx lines 82-87.  The four source paths
are overview?.production?.avg_yield, overview?.quality?.pass_rate,
overview?.equipment?.calibration_pass_rate, overview?.quality?.quality_score,
each defaulted with || 0.
-/

/-- Production section of the analytics overview payload (only the field the
radar derivation reads). -/
structure ProductionSection where
  avg_yield : Option ℚ
  deriving DecidableEq

/-- Quality section of the analytics overview payload. -/
structure QualitySection where
  pass_rate : Option ℚ
  quality_score : Option ℚ
  deriving DecidableEq

/-- Equipment section of the analytics overview payload. -/
structure EquipmentSection where
  calibration_pass_rate : Option ℚ
  deriving DecidableEq

/-- Overview snapshot as consumed by the radar derivation; each section may
itself be absent (the source uses optional chaining at every level). -/
structure Overview where
  production : Option ProductionSection
  quality : Option QualitySection
  equipment : Option EquipmentSection
  deriving DecidableEq

/-- One entry of the radar chart data. -/
structure RadarEntry where
  metric : String
  value : ℚ
  fullMark : ℚ
  deriving DecidableEq

/-- Path overview?.production?.avg_yield. -/
def pathAvgYield (o : Overview) : Option ℚ :=
  o.production.bind ProductionSection.avg_yield

/-- Path overview?.quality?.pass_rate. -/
def pathPassRate (o : Overview) : Option ℚ :=
  o.quality.bind QualitySection.pass_rate

/-- Path overview?.equipment?.calibration_pass_rate. -/
def pathCalibrationPassRate (o : Overview) : Option ℚ :=
  o.equipment.bind EquipmentSection.calibration_pass_rate

/-- Path overview?.quality?.quality_score. -/
def pathQualityScore (o : Overview) : Option ℚ :=
  o.quality.bind QualitySection.quality_score

/-- Radar chart data, Analytics.jsx lines 82-87: four fixed entries, each
value defaulted to 0 by || when its source path is absent or falsy. -/
def radarData (o : Overview) : List RadarEntry :=
  [ ⟨"Yield", jsOrZero (pathAvgYield o), 100⟩,
    ⟨"QC Pass", jsOrZero (pathPassRate o), 100⟩,
    ⟨"Calibrations OK", jsOrZero (pathCalibrationPassRate o), 100⟩,
    ⟨"Quality Score", jsOrZero (pathQualityScore o), 100⟩ ]

/-- Well-formedness of one optional percentage field: absent, or a value in
[0, 100]. -/
def fieldWF (x : Option ℚ) : Bool :=
  match x with
  | none => true
  | some v => decide (0 ≤ v ∧ v ≤ 100)

/-- Well-formedness of an overview snapshot: every numeric field that is
present on one of the four radar paths is a percentage in [0, 100]. -/
def overviewWF (o : Overview) : Bool :=
  fieldWF (pathAvgYield o) && fieldWF (pathPassRate o) &&
    fieldWF (pathCalibrationPassRate o) && fieldWF (pathQualityScore o)

/-!
Supplier pie derivation, Analytics.jsx lines 93-97:
suppliers?.suppliers?.slice(0, 5).map(...) || [].
-/

/-- One supplier record of the supplier-performance payload (the fields the
pie derivation reads). -/
structure SupplierRec where
  supplier_id : String
  supplier_name : Option String
  total_deliveries : ℚ
  approval_rate : ℚ
  deriving DecidableEq

/-- Supplier-performance snapshot; the suppliers list may be absent. -/
structure SupplierPerformance where
  suppliers : Option (List SupplierRec)
  deriving DecidableEq

/-- One entry of the supplier pie chart data. -/
structure PieEntry where
  name : String
  value : ℚ
  rate : ℚ
  deriving DecidableEq

/-- Supplier pie data, Analytics.jsx lines 93-97: first five suppliers in
backend order, mapped to the reduced shape; missing payload gives []. -/
def supplierPieData (sp : Option SupplierPerformance) : List PieEntry :=
  match sp with
  | none => []
  | some s =>
    match s.suppliers with
    | none => []
    | some l =>
      (l.take 5).map fun x =>
        ⟨jsOrStr x.supplier_name x.supplier_id, x.total_deliveries, x.approval_rate⟩

/-!
HTTP client model (src/unnamed/part_000).  Every analytics api function has
the shape: await fetch(url); return res.json().  The fetch promise rejects
only on a network-level failure; an HTTP response is resolved regardless of
its status code, and res.json() then rejects exactly when the body is not
parseable JSON.  The api function therefore never inspects res.ok.
-/

/-- Outcome of a single fetch call as observed by the api module: either a
network-level rejection, or a response carrying its ok status and, when the
body parses as JSON, the parsed value. -/
inductive FetchOutcome (α : Type) where
  | netError : FetchOutcome α
  | response (ok : Bool) (body : Option α) : FetchOutcome α
  deriving DecidableEq

/-- Result of one api getter (fetch then res.json()): rejects on network
failure or unparseable body; the HTTP status is never consulted. -/
def apiGet {α : Type} (o : FetchOutcome α) : Except Unit α :=
  match o with
  | .netError => .error ()
  | .response _ none => .error ()
  | .response _ (some v) => .ok v

/-- View-model state of the Analytics component (Analytics.jsx lines 17-22):
the five snapshot fields plus the loading flag. -/
structure AnalyticsState (α β γ δ ε : Type) where
  overview : Option α
  yearly : Option β
  suppliers : Option γ
  equipment : Option δ
  comparison : Option ε
  loading : Bool

/-- Aggregate load, Analytics.jsx lines 28-48: the five api calls run under
Promise.all; only when all five resolve are the five state fields set, the
catch block performs no state update, and the finally block clears loading. -/
def loadAllData {α β γ δ ε : Type} (s : AnalyticsState α β γ δ ε)
    (o1 : FetchOutcome α) (o2 : FetchOutcome β) (o3 : FetchOutcome γ)
    (o4 : FetchOutcome δ) (o5 : FetchOutcome ε) : AnalyticsState α β γ δ ε :=
  match apiGet o1, apiGet o2, apiGet o3, apiGet o4, apiGet o5 with
  | .ok a, .ok b, .ok c, .ok d, .ok e =>
    { overview := some a, yearly := some b, suppliers := some c,
      equipment := some d, comparison := some e, loading := false }
  | _, _, _, _, _ => { s with loading := false }

/-- Notion of sub-fetch failure used by the specification: a network failure
or a response with a non-success status. -/
def specSubFetchFails {α : Type} (o : FetchOutcome α) : Bool :=
  match o with
  | .netError => true
  | .response ok _ => !ok

/-!
Chat session manager (src/frontend/src/components/Chat.jsx).  The component
state is conversations, currentConvId, messages, input and loading; each
operation is embedded as a state transition taking the outcomes of the api
calls it performs as explicit arguments.
-/

/-- Conversation record as held in the sidebar list. -/
structure Conv where
  id : Nat
  title : String
  deriving DecidableEq

/-- Chat message: a role string and a content string. -/
structure Msg where
  role : String
  content : String
  deriving DecidableEq

/-- Chat component state (Chat.jsx lines 14-18). -/
structure ChatState where
  conversations : List Conv
  currentConvId : Option Nat
  messages : List Msg
  input : String
  loading : Bool
  deriving DecidableEq

/-- Operation selectConversation (Chat.jsx lines 32-38): set the current id,
then replace messages with the fetched history, or with [] when the history
fetch fails. -/
def selectConversation (s : ChatState) (convId : Nat)
    (historyRes : Except Unit (List Msg)) : ChatState :=
  match historyRes with
  | .ok h => { s with currentConvId := some convId, messages := h }
  | .error _ => { s with currentConvId := some convId, messages := [] }

/-- Body of loadConversations (Chat.jsx lines 24-30) with the closure's
captured currentConvId made explicit: the guard at line 28 reads the
currentConvId value of the render in which the closure was created, not the
live state, while the setters act on the live state.  On success replace the
list; when the fetched list is non-empty and the captured id is null, select
the first fetched conversation (which fetches its history); on failure leave
state unchanged. -/
def loadConversationsClosure (captured : Option Nat) (s : ChatState)
    (res : Except Unit (List Conv))
    (historyRes : Except Unit (List Msg)) : ChatState :=
  match res with
  | .error _ => s
  | .ok convs =>
    match convs, captured with
    | c :: _, none => selectConversation { s with conversations := convs } c.id historyRes
    | _, _ => { s with conversations := convs }

/-- Operation loadConversations invoked directly (component mount): the
captured id is the state's current one. -/
def loadConversations (s : ChatState) (res : Except Unit (List Conv))
    (historyRes : Except Unit (List Msg)) : ChatState :=
  loadConversationsClosure s.currentConvId s res historyRes

/-- Operation createNewConversation (Chat.jsx lines 40-47): on success
prepend the new conversation, make it current and clear messages; on failure
leave state unchanged. -/
def createNewConversation (s : ChatState) (res : Except Unit Conv) : ChatState :=
  match res with
  | .error _ => s
  | .ok conv =>
    { s with conversations := conv :: s.conversations,
             currentConvId := some conv.id, messages := [] }

/-- Operation deleteConversation (Chat.jsx lines 49-55): on success filter
the conversation out of the list and, when it was current, clear the current
id and the messages; on failure (the catch block) leave state unchanged. -/
def deleteConversation (s : ChatState) (convId : Nat)
    (res : Except Unit Unit) : ChatState :=
  match res with
  | .error _ => s
  | .ok _ =>
    let s1 := { s with conversations := s.conversations.filter fun c => c.id ≠ convId }
    if s.currentConvId = some convId then
      { s1 with currentConvId := none, messages := [] }
    else s1

/-- Embedding of the JavaScript expression input.trim(): strip leading and
trailing whitespace characters. -/
def jsTrim (s : String) : String :=
  ⟨((s.data.dropWhile Char.isWhitespace).reverse.dropWhile Char.isWhitespace).reverse⟩

/-- Result of one handleSubmit invocation: the final component state together
with the number of createConversation and chat requests issued. -/
structure SubmitResult where
  state : ChatState
  createCalls : Nat
  chatCalls : Nat
  deriving DecidableEq

/-- Optimistic phase of handleSubmit (Chat.jsx lines 67-70): append the user
message built from the input buffer, clear the input, set loading. -/
def optimisticState (s : ChatState) : ChatState :=
  { s with messages := s.messages ++ [⟨"user", s.input⟩],
           input := "", loading := true }

/-- Round-trip phase of handleSubmit (Chat.jsx lines 71-77), applied to a
state with a resolved conversation id: after the optimistic phase, on chat
success append the assistant response and run the loadConversations refresh,
on chat failure append the fixed fallback message; finally clear loading.
The refresh at line 74 is the loadConversations closure of the render in
which handleSubmit ran, so its guard reads the pre-submit currentConvId
(null in the lazy-creation path, where the refresh therefore auto-selects
the first fetched conversation), passed here as captured. -/
def submitSend (captured : Option Nat) (s : ChatState)
    (chatRes : Except Unit String)
    (refreshRes : Except Unit (List Conv))
    (historyRes : Except Unit (List Msg)) : ChatState :=
  let s1 := optimisticState s
  match chatRes with
  | .ok resp =>
    let s2 := { s1 with messages := s1.messages ++ [⟨"assistant", resp⟩] }
    let s3 := loadConversationsClosure captured s2 refreshRes historyRes
    { s3 with loading := false }
  | .error _ =>
    { s1 with messages := s1.messages ++ [⟨"assistant", "Connection error."⟩],
              loading := false }

/-- Operation handleSubmit (Chat.jsx lines 57-78): return unchanged when the
trimmed input is empty or a send is pending; otherwise resolve a conversation
id, creating a conversation first when none is current (a failed creation
aborts the call before any message is appended), then run the send phase. -/
def handleSubmit (s : ChatState) (createRes : Except Unit Conv)
    (chatRes : Except Unit String) (refreshRes : Except Unit (List Conv))
    (historyRes : Except Unit (List Msg)) : SubmitResult :=
  if jsTrim s.input = "" ∨ s.loading = true then ⟨s, 0, 0⟩
  else
    match s.currentConvId with
    | some cid => ⟨submitSend (some cid) s chatRes refreshRes historyRes, 0, 1⟩
    | none =>
      match createRes with
      | .error _ => ⟨s, 1, 0⟩
      | .ok conv =>
        ⟨submitSend none
            { s with conversations := conv :: s.conversations,
                     currentConvId := some conv.id }
            chatRes refreshRes historyRes, 1, 1⟩

/-- Conversation id a passing handleSubmit call sends to: the current one,
or the id of the conversation created lazily when none is current. -/
def effectiveConvId (s : ChatState) (createRes : Except Unit Conv) : Option Nat :=
  match s.currentConvId with
  | some cid => some cid
  | none =>
    match createRes with
    | .ok conv => some conv.id
    | .error _ => none

/-!
Summary stream consumption, api.streamSummary (src/unnamed/part_000 lines
97-116).  Each server event carries a decoded JSON payload whose done, error
and text fields are tested for JavaScript truthiness in that order; a
transport-level channel error closes the source with a fixed message.
Callback invocations are recorded as counters plus the accumulated chunk
text and the last error message delivered.
-/

/-- Decoded payload of one stream event: the truthiness of data.done, and
the optional error and text string fields. -/
structure StreamPayload where
  done : Bool
  error : Option String
  text : Option String
  deriving DecidableEq

/-- Observable state of one streamSummary channel: whether the EventSource
is still open, the concatenation passed to onChunk, the number of onDone and
onError invocations and the last error message. -/
structure StreamState where
  isOpen : Bool
  acc : String
  doneCount : Nat
  errorCount : Nat
  lastError : Option String
  deriving DecidableEq

/-- State of a freshly opened channel. -/
def streamStart : StreamState :=
  ⟨true, "", 0, 0, none⟩

/-- JavaScript truthiness of an optional string field: null/undefined and
the empty string are falsy. -/
def truthyStr (o : Option String) : Bool :=
  match o with
  | none => false
  | some s => s ≠ ""

/-- The onmessage handler: if data.done is truthy close and signal
completion, else if data.error is truthy close and signal the error, else if
data.text is truthy forward the chunk; a closed source delivers no events. -/
def onMessage (st : StreamState) (d : StreamPayload) : StreamState :=
  if st.isOpen = false then st
  else if d.done then
    { st with isOpen := false, doneCount := st.doneCount + 1 }
  else if truthyStr d.error then
    { st with isOpen := false, errorCount := st.errorCount + 1,
              lastError := d.error }
  else if truthyStr d.text then
    { st with acc := st.acc ++ d.text.getD "" }
  else st

/-- The onerror handler of the EventSource: close and signal the fixed
connection-error message (no effect on an already closed source). -/
def onChannelError (st : StreamState) : StreamState :=
  if st.isOpen = false then st
  else
    { st with isOpen := false, errorCount := st.errorCount + 1,
              lastError := some "Connection error" }

/-- Delivery of a sequence of server events to the channel. -/
def runStream (st : StreamState) (events : List StreamPayload) : StreamState :=
  events.foldl onMessage st

/-!
Chat session invariant machinery: the five operations as one step type, so
the invariant can be stated once over all of them.
-/

/-- One chat session operation together with the outcomes of the api calls
it performs. -/
inductive ChatOp where
  | load (res : Except Unit (List Conv)) (hist : Except Unit (List Msg))
  | select (cid : Nat) (hist : Except Unit (List Msg))
  | create (res : Except Unit Conv)
  | del (cid : Nat) (res : Except Unit Unit)
  | send (cr : Except Unit Conv) (chr : Except Unit String)
      (rr : Except Unit (List Conv)) (hr : Except Unit (List Msg))

/-- Application of one chat operation to the session state. -/
def applyOp (s : ChatState) (op : ChatOp) : ChatState :=
  match op with
  | .load res hist => loadConversations s res hist
  | .select cid hist => selectConversation s cid hist
  | .create res => createNewConversation s res
  | .del cid res => deleteConversation s cid res
  | .send cr chr rr hr => (handleSubmit s cr chr rr hr).state

/-- The session invariant of the specification: the current conversation id
is null or the id of a member of the conversation list. -/
def chatInvariant (s : ChatState) : Bool :=
  match s.currentConvId with
  | none => true
  | some cid => s.conversations.any fun c => c.id = cid

/-- Side conditions under which one operation preserves the invariant:
selection targets a listed id, and any server conversation list that
replaces the local one still contains the conversation the client holds
active (trivially true for failed fetches and for operations that do not
replace the list). -/
def opPre (s : ChatState) (op : ChatOp) : Bool :=
  match op with
  | .load res _ =>
    match res with
    | .error _ => true
    | .ok convs =>
      match s.currentConvId with
      | none => true
      | some cid => convs.any fun c => c.id = cid
  | .select cid _ => s.conversations.any fun c => c.id = cid
  | .create _ => true
  | .del _ _ => true
  | .send cr _ rr _ =>
    match rr with
    | .error _ => true
    | .ok convs =>
      match effectiveConvId s cr with
      | none => true
      | some cid => convs.any fun c => c.id = cid

/-!
Theorems.
-/

/-- C1: the period-comparison delta tiles follow the exact per-metric
polarity table: batches and yield render green for a non-negative percentage
and red for a negative one; hardness renders the same neutral blue class
regardless of sign; complaints invert, green for non-positive and red for
positive; and at -5 the four classes are red, red, blue, green. -/
theorem comparison_polarity_table :
    (∀ p : ℚ, 0 ≤ p → batchesDeltaClass p = "text-green-600") ∧
    (∀ p : ℚ, p < 0 → batchesDeltaClass p = "text-red-600") ∧
    (∀ p : ℚ, 0 ≤ p → yieldDeltaClass p = "text-green-600") ∧
    (∀ p : ℚ, p < 0 → yieldDeltaClass p = "text-red-600") ∧
    (∀ p : ℚ, hardnessDeltaClass p = "text-blue-600") ∧
    (∀ p : ℚ, p ≤ 0 → complaintsDeltaClass p = "text-green-600") ∧
    (∀ p : ℚ, 0 < p → complaintsDeltaClass p = "text-red-600") ∧
    batchesDeltaClass (-5) = "text-red-600" ∧
    yieldDeltaClass (-5) = "text-red-600" ∧
    hardnessDeltaClass (-5) = "text-blue-600" ∧
    complaintsDeltaClass (-5) = "text-green-600" := by
  refine ⟨fun p h => ?_, fun p h => ?_, fun p h => ?_, fun p h => ?_, fun p => ?_,
    fun p h => ?_, fun p h => ?_, by decide, by decide, by decide, by decide⟩
  · simp [batchesDeltaClass, h]
  · simp [batchesDeltaClass, not_le.mpr h]
  · simp [yieldDeltaClass, h]
  · simp [yieldDeltaClass, not_le.mpr h]
  · simp [hardnessDeltaClass]
  · simp [complaintsDeltaClass, h]
  · simp [complaintsDeltaClass, not_le.mpr h]

/-- Witness for C1: the polarity theorem evaluated at concrete percentages. -/
theorem comparison_polarity_table_witness :
    batchesDeltaClass 3 = "text-green-600" ∧ batchesDeltaClass (-2) = "text-red-600" ∧
    yieldDeltaClass 3 = "text-green-600" ∧ yieldDeltaClass (-2) = "text-red-600" ∧
    hardnessDeltaClass 7 = "text-blue-600" ∧
    complaintsDeltaClass (-2) = "text-green-600" ∧ complaintsDeltaClass 3 = "text-red-600" :=
  ⟨comparison_polarity_table.1 3 (by norm_num),
   comparison_polarity_table.2.1 (-2) (by norm_num),
   comparison_polarity_table.2.2.1 3 (by norm_num),
   comparison_polarity_table.2.2.2.1 (-2) (by norm_num),
   comparison_polarity_table.2.2.2.2.1 7,
   comparison_polarity_table.2.2.2.2.2.1 (-2) (by norm_num),
   comparison_polarity_table.2.2.2.2.2.2.1 3 (by norm_num)⟩

/-- State of the Analytics component before the first load: all snapshot
fields empty, loading true (Analytics.jsx lines 17-22). -/
def analyticsStart : AnalyticsState Nat Nat Nat Nat Nat :=
  ⟨none, none, none, none, none, true⟩

/-- Counterexample to C2: a sub-fetch returning a non-success HTTP response
with a parseable JSON body is a failure in the sense of the claim, yet the
api getter never consults the status, so Promise.all resolves and all five
state fields are updated; the claim that no field is updated is false. -/
theorem loadAllData_nonsuccess_counterexample :
    specSubFetchFails ((FetchOutcome.response false (some 7)) : FetchOutcome Nat) = true ∧
    analyticsStart.suppliers = none ∧
    (loadAllData analyticsStart (.response true (some 1)) (.response true (some 2))
        (.response false (some 7)) (.response true (some 4))
        (.response true (some 5))).suppliers = some 7 := by decide

/-- C2 amended: a sub-fetch fails exactly when its promise rejects, that is
on a network failure or an unparseable body; a non-success status with a
parseable JSON body resolves normally.  With that notion of failure the load
is all-or-nothing: if any of the five rejects, none of the five snapshot
fields is updated and loading is cleared. -/
theorem loadAllData_all_or_nothing {α β γ δ ε : Type}
    (s : AnalyticsState α β γ δ ε)
    (o1 : FetchOutcome α) (o2 : FetchOutcome β) (o3 : FetchOutcome γ)
    (o4 : FetchOutcome δ) (o5 : FetchOutcome ε)
    (h : apiGet o1 = .error () ∨ apiGet o2 = .error () ∨ apiGet o3 = .error () ∨
        apiGet o4 = .error () ∨ apiGet o5 = .error ()) :
    (loadAllData s o1 o2 o3 o4 o5).overview = s.overview ∧
    (loadAllData s o1 o2 o3 o4 o5).yearly = s.yearly ∧
    (loadAllData s o1 o2 o3 o4 o5).suppliers = s.suppliers ∧
    (loadAllData s o1 o2 o3 o4 o5).equipment = s.equipment ∧
    (loadAllData s o1 o2 o3 o4 o5).comparison = s.comparison ∧
    (loadAllData s o1 o2 o3 o4 o5).loading = false := by
  cases e1 : apiGet o1 <;> cases e2 : apiGet o2 <;> cases e3 : apiGet o3 <;>
    cases e4 : apiGet o4 <;> cases e5 : apiGet o5 <;>
      simp_all [loadAllData]

/-- Witness for C2: the all-or-nothing theorem applied to a run whose first
sub-fetch hits a network failure. -/
theorem loadAllData_all_or_nothing_witness :
    (loadAllData analyticsStart FetchOutcome.netError (.response true (some 2))
        (.response true (some 3)) (.response true (some 4))
        (.response true (some 5))).overview = analyticsStart.overview ∧
    (loadAllData analyticsStart FetchOutcome.netError (.response true (some 2))
        (.response true (some 3)) (.response true (some 4))
        (.response true (some 5))).yearly = analyticsStart.yearly ∧
    (loadAllData analyticsStart FetchOutcome.netError (.response true (some 2))
        (.response true (some 3)) (.response true (some 4))
        (.response true (some 5))).suppliers = analyticsStart.suppliers ∧
    (loadAllData analyticsStart FetchOutcome.netError (.response true (some 2))
        (.response true (some 3)) (.response true (some 4))
        (.response true (some 5))).equipment = analyticsStart.equipment ∧
    (loadAllData analyticsStart FetchOutcome.netError (.response true (some 2))
        (.response true (some 3)) (.response true (some 4))
        (.response true (some 5))).comparison = analyticsStart.comparison ∧
    (loadAllData analyticsStart FetchOutcome.netError (.response true (some 2))
        (.response true (some 3)) (.response true (some 4))
        (.response true (some 5))).loading = false :=
  loadAllData_all_or_nothing analyticsStart _ _ _ _ _ (Or.inl rfl)

/-- C10: when the backend delete request rejects, the catch block only logs:
the session state is returned unchanged and, since the operation is total on
states, the error is swallowed rather than propagated. -/
theorem deleteConversation_failure_noop (s : ChatState) (cid : Nat) :
    deleteConversation s cid (.error ()) = s := rfl

/-- Bounds of the defaulted radar value: a well-formed optional field gives
a value in [0, 100] after the || 0 coercion. -/
theorem fieldWF_bounds (x : Option ℚ) (h : fieldWF x = true) :
    0 ≤ jsOrZero x ∧ jsOrZero x ≤ 100 := by
  cases x with
  | none => simp [jsOrZero]
  | some v =>
    simp only [fieldWF, decide_eq_true_eq] at h
    by_cases hv : v = 0
    · simp [jsOrZero, hv]
    · simpa [jsOrZero, hv] using h

/-- C3: for every well-formed overview snapshot the radar vector has exactly
four entries with the four fixed metric labels, every value lies in
[0, 100], and a missing or falsy source field yields value 0 for its entry
rather than an absent entry or a non-number. -/
theorem radarData_entries (o : Overview) (hwf : overviewWF o = true) :
    (radarData o).length = 4 ∧
    (radarData o).map RadarEntry.metric
      = ["Yield", "QC Pass", "Calibrations OK", "Quality Score"] ∧
    (∀ e ∈ radarData o, 0 ≤ e.value ∧ e.value ≤ 100) ∧
    ((pathAvgYield o = none ∨ pathAvgYield o = some 0) →
      ∀ e ∈ radarData o, e.metric = "Yield" → e.value = 0) ∧
    ((pathPassRate o = none ∨ pathPassRate o = some 0) →
      ∀ e ∈ radarData o, e.metric = "QC Pass" → e.value = 0) ∧
    ((pathCalibrationPassRate o = none ∨ pathCalibrationPassRate o = some 0) →
      ∀ e ∈ radarData o, e.metric = "Calibrations OK" → e.value = 0) ∧
    ((pathQualityScore o = none ∨ pathQualityScore o = some 0) →
      ∀ e ∈ radarData o, e.metric = "Quality Score" → e.value = 0) := by
  have h := hwf
  simp only [overviewWF, Bool.and_eq_true] at h
  obtain ⟨⟨⟨h1, h2⟩, h3⟩, h4⟩ := h
  refine ⟨rfl, rfl, ?_, ?_, ?_, ?_, ?_⟩
  · intro e he
    simp only [radarData, List.mem_cons, List.not_mem_nil, or_false] at he
    rcases he with rfl | rfl | rfl | rfl
    · exact fieldWF_bounds _ h1
    · exact fieldWF_bounds _ h2
    · exact fieldWF_bounds _ h3
    · exact fieldWF_bounds _ h4
  · intro hf e he hm
    simp only [radarData, List.mem_cons, List.not_mem_nil, or_false] at he
    rcases he with rfl | rfl | rfl | rfl
    · rcases hf with hf | hf <;> simp [jsOrZero, hf]
    · simp at hm
    · simp at hm
    · simp at hm
  · intro hf e he hm
    simp only [radarData, List.mem_cons, List.not_mem_nil, or_false] at he
    rcases he with rfl | rfl | rfl | rfl
    · simp at hm
    · rcases hf with hf | hf <;> simp [jsOrZero, hf]
    · simp at hm
    · simp at hm
  · intro hf e he hm
    simp only [radarData, List.mem_cons, List.not_mem_nil, or_false] at he
    rcases he with rfl | rfl | rfl | rfl
    · simp at hm
    · simp at hm
    · rcases hf with hf | hf <;> simp [jsOrZero, hf]
    · simp at hm
  · intro hf e he hm
    simp only [radarData, List.mem_cons, List.not_mem_nil, or_false] at he
    rcases he with rfl | rfl | rfl | rfl
    · simp at hm
    · simp at hm
    · simp at hm
    · rcases hf with hf | hf <;> simp [jsOrZero, hf]

/-- Overview snapshot used as witness input: no production section, a
quality section with pass rate 50 and no quality score, calibration pass
rate 100. -/
def demoOverview : Overview :=
  ⟨none, some ⟨some 50, none⟩, some ⟨some 100⟩⟩

/-- Witness for C3: the radar theorem evaluated on a snapshot with absent
production and quality-score fields. -/
theorem radarData_entries_witness :
    (radarData demoOverview).length = 4 ∧
    (∀ e ∈ radarData demoOverview, 0 ≤ e.value ∧ e.value ≤ 100) ∧
    (∀ e ∈ radarData demoOverview, e.metric = "Yield" → e.value = 0) :=
  ⟨(radarData_entries demoOverview (by decide)).1,
   (radarData_entries demoOverview (by decide)).2.2.1,
   (radarData_entries demoOverview (by decide)).2.2.2.1 (Or.inl rfl)⟩

/-- C4: the supplier pie data is exactly the first min(5, n) suppliers of
the backend sequence in backend order, each reduced to delivery count as
value and approval rate as rate. -/
theorem supplierPieData_top5 (l : List SupplierRec) :
    (supplierPieData (some ⟨some l⟩)).length = min 5 l.length ∧
    ∀ i : Nat, i < min 5 l.length →
      ((supplierPieData (some ⟨some l⟩))[i]?.map PieEntry.value
          = (l[i]?).map SupplierRec.total_deliveries) ∧
      ((supplierPieData (some ⟨some l⟩))[i]?.map PieEntry.rate
          = (l[i]?).map SupplierRec.approval_rate) := by
  constructor
  · simp [supplierPieData, List.length_take]
  · intro i hi
    have hi5 : i < 5 := lt_of_lt_of_le hi (min_le_left _ _)
    have ht : (l.take 5)[i]? = l[i]? := by simp [List.getElem?_take, hi5]
    constructor <;>
      · simp only [supplierPieData, List.getElem?_map, ht]
        cases l[i]? <;> simp

/-- Supplier list used as witness input. -/
def demoSuppliers : List SupplierRec :=
  [⟨"S1", some "Acme", 10, 99⟩, ⟨"S2", none, 7, 95⟩]

/-- Witness for C4: the pie-data theorem on a two-supplier backend list,
read at index 1. -/
theorem supplierPieData_top5_witness :
    (supplierPieData (some ⟨some demoSuppliers⟩)).length = min 5 demoSuppliers.length ∧
    ((supplierPieData (some ⟨some demoSuppliers⟩))[1]?.map PieEntry.value
        = (demoSuppliers[1]?).map SupplierRec.total_deliveries) ∧
    ((supplierPieData (some ⟨some demoSuppliers⟩))[1]?.map PieEntry.rate
        = (demoSuppliers[1]?).map SupplierRec.approval_rate) :=
  ⟨(supplierPieData_top5 demoSuppliers).1,
   ((supplierPieData_top5 demoSuppliers).2 1 (by decide)).1,
   ((supplierPieData_top5 demoSuppliers).2 1 (by decide)).2⟩

/-- C5: handleSubmit is a silent no-op when the trimmed input is empty or a
send is already pending: the state is unchanged and no create or chat
request is issued.  The optimistic phase always leaves loading set, so a
second call made while the first is in flight is dropped with no request,
while a passing call issues exactly one chat request. -/
theorem handleSubmit_noop_guard :
    (∀ (s : ChatState) (cr : Except Unit Conv) (chr : Except Unit String)
        (rr : Except Unit (List Conv)) (hr : Except Unit (List Msg)),
      jsTrim s.input = "" ∨ s.loading = true →
        handleSubmit s cr chr rr hr = ⟨s, 0, 0⟩) ∧
    (∀ s : ChatState, (optimisticState s).loading = true) ∧
    (∀ (s : ChatState) (cr : Except Unit Conv) (chr : Except Unit String)
        (rr : Except Unit (List Conv)) (hr : Except Unit (List Msg)),
      handleSubmit (optimisticState s) cr chr rr hr = ⟨optimisticState s, 0, 0⟩) ∧
    (∀ (s : ChatState) (cid : Nat) (cr : Except Unit Conv) (chr : Except Unit String)
        (rr : Except Unit (List Conv)) (hr : Except Unit (List Msg)),
      jsTrim s.input ≠ "" → s.loading = false → s.currentConvId = some cid →
        (handleSubmit s cr chr rr hr).chatCalls = 1) := by
  refine ⟨?_, fun s => rfl, ?_, ?_⟩
  · intro s cr chr rr hr h
    rcases h with h | h <;> simp [handleSubmit, h]
  · intro s cr chr rr hr
    simp [handleSubmit, optimisticState]
  · intro s cid cr chr rr hr h1 h2 h3
    simp [handleSubmit, h1, h2, h3]

/-- Witness for C5: the guard theorem evaluated on an empty input, a
whitespace input, a pending state and a passing call. -/
theorem handleSubmit_noop_guard_witness :
    handleSubmit ⟨[], none, [], "", false⟩ (.error ()) (.error ()) (.error ()) (.error ())
      = ⟨⟨[], none, [], "", false⟩, 0, 0⟩ ∧
    handleSubmit ⟨[], none, [], "  ", false⟩ (.error ()) (.error ()) (.error ()) (.error ())
      = ⟨⟨[], none, [], "  ", false⟩, 0, 0⟩ ∧
    handleSubmit ⟨[⟨1, "t"⟩], some 1, [], "a", true⟩ (.error ()) (.ok "r") (.error ()) (.error ())
      = ⟨⟨[⟨1, "t"⟩], some 1, [], "a", true⟩, 0, 0⟩ ∧
    (handleSubmit ⟨[⟨1, "t"⟩], some 1, [], "a", false⟩ (.error ()) (.ok "r")
        (.error ()) (.error ())).chatCalls = 1 :=
  ⟨handleSubmit_noop_guard.1 _ _ _ _ _ (Or.inl (by decide)),
   handleSubmit_noop_guard.1 _ _ _ _ _ (Or.inl (by decide)),
   handleSubmit_noop_guard.1 _ _ _ _ _ (Or.inr rfl),
   handleSubmit_noop_guard.2.2.2 _ 1 _ _ _ _ (by decide) rfl rfl⟩

/-- C6 amended: pending resets to false for every call that passes the
precondition.  When a conversation is already active, exactly one terminal
assistant message is appended after the optimistic user message — the
response on success, the fixed fallback on failure.  In the lazy-creation
path the same guarantee holds when creation succeeds and the chat fails, or
the refresh fetch fails, or it returns an empty list; but when the chat
succeeds and the refresh returns a non-empty list, the refresh closure
still sees the pre-submit null id, auto-selects the first fetched
conversation and replaces the local messages with that conversation's
fetched history (or with [] when the history fetch fails).  When the lazy
creation rejects, the call aborts before appending anything. -/
theorem handleSubmit_terminal_assistant :
    (∀ (s : ChatState) (cid : Nat) (cr : Except Unit Conv) (chr : Except Unit String)
        (rr : Except Unit (List Conv)) (hr : Except Unit (List Msg)),
      jsTrim s.input ≠ "" → s.loading = false → s.currentConvId = some cid →
        (handleSubmit s cr chr rr hr).state.messages
          = s.messages ++ [⟨"user", s.input⟩,
              ⟨"assistant",
                match chr with | .ok r => r | .error _ => "Connection error."⟩]) ∧
    (∀ (s : ChatState) (c : Conv) (e : Unit) (rr : Except Unit (List Conv))
        (hr : Except Unit (List Msg)),
      jsTrim s.input ≠ "" → s.loading = false → s.currentConvId = none →
        (handleSubmit s (.ok c) (.error e) rr hr).state.messages
          = s.messages ++ [⟨"user", s.input⟩, ⟨"assistant", "Connection error."⟩]) ∧
    (∀ (s : ChatState) (c : Conv) (r : String) (e : Unit)
        (hr : Except Unit (List Msg)),
      jsTrim s.input ≠ "" → s.loading = false → s.currentConvId = none →
        (handleSubmit s (.ok c) (.ok r) (.error e) hr).state.messages
          = s.messages ++ [⟨"user", s.input⟩, ⟨"assistant", r⟩]) ∧
    (∀ (s : ChatState) (c : Conv) (r : String) (hr : Except Unit (List Msg)),
      jsTrim s.input ≠ "" → s.loading = false → s.currentConvId = none →
        (handleSubmit s (.ok c) (.ok r) (.ok []) hr).state.messages
          = s.messages ++ [⟨"user", s.input⟩, ⟨"assistant", r⟩]) ∧
    (∀ (s : ChatState) (c c2 : Conv) (rest : List Conv) (r : String)
        (hr : Except Unit (List Msg)),
      jsTrim s.input ≠ "" → s.loading = false → s.currentConvId = none →
        (handleSubmit s (.ok c) (.ok r) (.ok (c2 :: rest)) hr).state.messages
          = (match hr with | .ok h => h | .error _ => [])) ∧
    (∀ (s : ChatState) (cr : Except Unit Conv) (chr : Except Unit String)
        (rr : Except Unit (List Conv)) (hr : Except Unit (List Msg)),
      jsTrim s.input ≠ "" → s.loading = false →
        (handleSubmit s cr chr rr hr).state.loading = false) := by
  refine ⟨?_, ?_, ?_, ?_, ?_, ?_⟩
  · intro s cid cr chr rr hr hin hld hc
    cases chr with
    | ok r =>
      cases rr with
      | ok convs =>
        cases convs <;>
          simp [handleSubmit, submitSend, optimisticState, loadConversationsClosure,
            hin, hld, hc]
      | error e =>
        simp [handleSubmit, submitSend, optimisticState, loadConversationsClosure,
          hin, hld, hc]
    | error e =>
      simp [handleSubmit, submitSend, optimisticState, hin, hld, hc]
  · intro s c e rr hr hin hld hc
    simp [handleSubmit, submitSend, optimisticState, hin, hld, hc]
  · intro s c r e hr hin hld hc
    simp [handleSubmit, submitSend, optimisticState, loadConversationsClosure,
      hin, hld, hc]
  · intro s c r hr hin hld hc
    simp [handleSubmit, submitSend, optimisticState, loadConversationsClosure,
      hin, hld, hc]
  · intro s c c2 rest r hr hin hld hc
    cases hr <;>
      simp [handleSubmit, submitSend, optimisticState, loadConversationsClosure,
        selectConversation, hin, hld, hc]
  · intro s cr chr rr hr hin hld
    cases hc : s.currentConvId with
    | some cid =>
      cases chr with
      | ok r =>
        cases rr with
        | ok convs =>
          cases convs <;>
            simp [handleSubmit, submitSend, optimisticState, loadConversationsClosure,
              hin, hld, hc]
        | error e =>
          simp [handleSubmit, submitSend, optimisticState, loadConversationsClosure,
            hin, hld, hc]
      | error e =>
        simp [handleSubmit, submitSend, optimisticState, hin, hld, hc]
    | none =>
      cases cr with
      | error e =>
        simp [handleSubmit, hin, hld, hc, hld]
      | ok conv =>
        cases chr with
        | ok r =>
          cases rr with
          | ok convs =>
            cases convs with
            | nil =>
              simp [handleSubmit, submitSend, optimisticState, loadConversationsClosure,
                hin, hld, hc]
            | cons c2 rest =>
              cases hr <;>
                simp [handleSubmit, submitSend, optimisticState,
                  loadConversationsClosure, selectConversation, hin, hld, hc]
          | error e =>
            simp [handleSubmit, submitSend, optimisticState, loadConversationsClosure,
              hin, hld, hc]
        | error e =>
          simp [handleSubmit, submitSend, optimisticState, hin, hld, hc]

/-- Session state with no conversations, no current conversation and a
non-empty input buffer. -/
def chatStartLazy : ChatState :=
  ⟨[], none, [], "x", false⟩

/-- Counterexample to C6: a call that passes the precondition but whose lazy
conversation creation rejects appends no message at all — neither the
optimistic user turn nor any assistant turn — so the claimed terminal
assistant message does not exist. -/
theorem handleSubmit_create_failure_counterexample :
    (jsTrim chatStartLazy.input ≠ "" ∧ chatStartLazy.loading = false) ∧
    (handleSubmit chatStartLazy (.error ()) (.ok "hello") (.ok []) (.error ())).state.messages
      = [] ∧
    (handleSubmit chatStartLazy (.error ()) (.ok "hello") (.ok []) (.error ())).state
      = chatStartLazy := by
  refine ⟨⟨by decide, rfl⟩, by decide, by decide⟩

/-- Witness for C6: the amended theorem on a state with a current
conversation (one successful and one failed chat round trip), on the
lazy-creation path whose refresh auto-selects and replaces the messages with
a failed history fetch, and on the loading reset. -/
theorem handleSubmit_terminal_assistant_witness :
    (handleSubmit ⟨[⟨1, "t"⟩], some 1, [], "hi", false⟩ (.error ()) (.ok "yes")
        (.error ()) (.error ())).state.messages
      = [] ++ [⟨"user", "hi"⟩, ⟨"assistant", "yes"⟩] ∧
    (handleSubmit ⟨[⟨1, "t"⟩], some 1, [], "hi", false⟩ (.error ()) (.error ())
        (.error ()) (.error ())).state.messages
      = [] ++ [⟨"user", "hi"⟩, ⟨"assistant", "Connection error."⟩] ∧
    (handleSubmit chatStartLazy (.ok ⟨1, "t"⟩) (.ok "yes")
        (.ok [⟨1, "t"⟩]) (.error ())).state.messages = [] ∧
    (handleSubmit ⟨[⟨1, "t"⟩], some 1, [], "hi", false⟩ (.error ()) (.error ())
        (.error ()) (.error ())).state.loading = false :=
  ⟨handleSubmit_terminal_assistant.1 ⟨[⟨1, "t"⟩], some 1, [], "hi", false⟩ 1
     (.error ()) (.ok "yes") (.error ()) (.error ()) (by decide) rfl rfl,
   handleSubmit_terminal_assistant.1 ⟨[⟨1, "t"⟩], some 1, [], "hi", false⟩ 1
     (.error ()) (.error ()) (.error ()) (.error ()) (by decide) rfl rfl,
   handleSubmit_terminal_assistant.2.2.2.2.1 chatStartLazy ⟨1, "t"⟩ ⟨1, "t"⟩ []
     "yes" (.error ()) (by decide) rfl rfl,
   handleSubmit_terminal_assistant.2.2.2.2.2 ⟨[⟨1, "t"⟩], some 1, [], "hi", false⟩
     (.error ()) (.error ()) (.error ()) (.error ()) (by decide) rfl⟩

/-- C7 amended: each stream payload is handled by truthiness of its fields:
a truthy done closes the channel and signals completion once; a non-empty
error message closes the channel and signals it once; a non-empty text chunk
is forwarded and leaves the channel open; a transport error closes the
channel with the fixed connection-error message.  The two reference event
sequences accumulate ab with one completion, and a with one error x.
Payloads whose error or text field is the empty string are ignored. -/
theorem streamSummary_dispatch :
    (∀ st : StreamState, st.isOpen = true →
        onMessage st ⟨true, none, none⟩
          = { st with isOpen := false, doneCount := st.doneCount + 1 }) ∧
    (∀ (st : StreamState) (e : String), st.isOpen = true → e ≠ "" →
        onMessage st ⟨false, some e, none⟩
          = { st with isOpen := false, errorCount := st.errorCount + 1,
                      lastError := some e }) ∧
    (∀ (st : StreamState) (t : String), st.isOpen = true → t ≠ "" →
        onMessage st ⟨false, none, some t⟩ = { st with acc := st.acc ++ t }) ∧
    (∀ st : StreamState, st.isOpen = true →
        onChannelError st
          = { st with isOpen := false, errorCount := st.errorCount + 1,
                      lastError := some "Connection error" }) ∧
    runStream streamStart
        [⟨false, none, some "a"⟩, ⟨false, none, some "b"⟩, ⟨true, none, none⟩]
      = ⟨false, "ab", 1, 0, none⟩ ∧
    runStream streamStart [⟨false, none, some "a"⟩, ⟨false, some "x", none⟩]
      = ⟨false, "a", 0, 1, some "x"⟩ := by
  refine ⟨?_, ?_, ?_, ?_, by decide, by decide⟩
  · intro st h
    simp [onMessage, h]
  · intro st e h he
    simp [onMessage, truthyStr, h, he]
  · intro st t h ht
    simp [onMessage, truthyStr, h, ht]
  · intro st h
    simp [onChannelError, h]

/-- Counterexample to C7: the payload whose error field is the empty string
is a payload of shape error-with-a-string, yet the truthiness test skips it:
no error callback fires and the channel stays open, contradicting the
claimed close-and-signal behavior for every error payload. -/
theorem streamSummary_empty_error_counterexample :
    truthyStr (some "") = false ∧
    onMessage streamStart ⟨false, some "", none⟩ = streamStart ∧
    (onMessage streamStart ⟨false, some "", none⟩).errorCount = 0 ∧
    (onMessage streamStart ⟨false, some "", none⟩).isOpen = true := by decide

/-- Witness for C7: the dispatch theorem evaluated on a fresh channel. -/
theorem streamSummary_dispatch_witness :
    onMessage streamStart ⟨true, none, none⟩
      = { streamStart with isOpen := false, doneCount := streamStart.doneCount + 1 } ∧
    onMessage streamStart ⟨false, some "x", none⟩
      = { streamStart with isOpen := false, errorCount := streamStart.errorCount + 1,
                           lastError := some "x" } ∧
    onMessage streamStart ⟨false, none, some "a"⟩
      = { streamStart with acc := streamStart.acc ++ "a" } ∧
    onChannelError streamStart
      = { streamStart with isOpen := false, errorCount := streamStart.errorCount + 1,
                           lastError := some "Connection error" } :=
  ⟨streamSummary_dispatch.1 streamStart rfl,
   streamSummary_dispatch.2.1 streamStart "x" rfl (by decide),
   streamSummary_dispatch.2.2.1 streamStart "a" rfl (by decide),
   streamSummary_dispatch.2.2.2.1 streamStart rfl⟩

/-- C8: a successful deleteConversation removes every conversation bearing
the deleted id and keeps exactly the others; when the deleted conversation
was current, both the current id and the messages are cleared, with no
replacement selected. -/
theorem deleteConversation_removes (s : ChatState) (cid : Nat)
    (_hmem : (s.conversations.any fun c => c.id = cid) = true) :
    ((deleteConversation s cid (.ok ())).conversations.any fun c => c.id = cid) = false ∧
    (∀ c : Conv, c ∈ (deleteConversation s cid (.ok ())).conversations ↔
        (c ∈ s.conversations ∧ c.id ≠ cid)) ∧
    (s.currentConvId = some cid →
      (deleteConversation s cid (.ok ())).currentConvId = none ∧
      (deleteConversation s cid (.ok ())).messages = []) := by
  by_cases h : s.currentConvId = some cid <;>
    simp [deleteConversation, h, List.any_eq_true, List.mem_filter]

/-- Session state with two conversations, the first one active. -/
def demoChat : ChatState :=
  ⟨[⟨1, "a"⟩, ⟨2, "b"⟩], some 1, [⟨"user", "hi"⟩], "", false⟩

/-- Witness for C8: deleting the active conversation of a two-conversation
session removes it, clears the selection and the messages, and the other
conversation remains unselected. -/
theorem deleteConversation_removes_witness :
    ((deleteConversation demoChat 1 (.ok ())).conversations.any fun c => c.id = 1) = false ∧
    (deleteConversation demoChat 1 (.ok ())).currentConvId = none ∧
    (deleteConversation demoChat 1 (.ok ())).messages = [] ∧
    (deleteConversation demoChat 1 (.ok ())).conversations = [⟨2, "b"⟩] :=
  ⟨(deleteConversation_removes demoChat 1 (by decide)).1,
   ((deleteConversation_removes demoChat 1 (by decide)).2.2 rfl).1,
   ((deleteConversation_removes demoChat 1 (by decide)).2.2 rfl).2,
   by decide⟩

/-- Session state with one conversation which is active. -/
def chatWithOne : ChatState :=
  ⟨[⟨1, "t"⟩], some 1, [], "", false⟩

/-- Counterexample to C9: loadConversations replaces the local list with the
fetched one but never revisits the active id, so a fetch returning a list
without the active conversation (here the empty list) leaves the active id
dangling: the invariant holds before the operation and fails after it. -/
theorem chat_invariant_counterexample :
    chatInvariant chatWithOne = true ∧
    chatInvariant (applyOp chatWithOne (ChatOp.load (.ok []) (.error ()))) = false := by
  decide

/-- C9 amended: the session invariant (the active id is null or a member of
the list) is preserved by every operation provided selection targets a
listed id and every fetched conversation list that replaces the local one
still contains the conversation the client holds active; without that
proviso a loadConversations can leave the active id dangling. -/
theorem chat_invariant_preserved (s : ChatState) (op : ChatOp)
    (hinv : chatInvariant s = true) (hpre : opPre s op = true) :
    chatInvariant (applyOp s op) = true := by
  cases op with
  | load res hist =>
    cases res with
    | error e => simpa [applyOp, loadConversations, loadConversationsClosure] using hinv
    | ok convs =>
      cases hc : s.currentConvId with
      | none =>
        cases convs with
        | nil =>
          simp [applyOp, loadConversations, loadConversationsClosure, hc, chatInvariant]
        | cons c rest =>
          cases hist <;>
            simp [applyOp, loadConversations, loadConversationsClosure, hc,
              selectConversation, chatInvariant]
      | some cid =>
        cases convs with
        | nil =>
          simp_all [applyOp, loadConversations, loadConversationsClosure, hc,
            chatInvariant, opPre]
        | cons c rest =>
          simp_all [applyOp, loadConversations, loadConversationsClosure, hc,
            chatInvariant, opPre]
  | select cid hist =>
    cases hist <;> simp_all [applyOp, selectConversation, chatInvariant, opPre]
  | create res =>
    cases res with
    | error e => simpa [applyOp, createNewConversation] using hinv
    | ok conv => simp [applyOp, createNewConversation, chatInvariant]
  | del cid res =>
    cases res with
    | error e => simpa [applyOp, deleteConversation] using hinv
    | ok u =>
      cases hc : s.currentConvId with
      | none => simp [applyOp, deleteConversation, hc, chatInvariant]
      | some other =>
        by_cases h : other = cid
        · simp [applyOp, deleteConversation, hc, h, chatInvariant]
        · simp only [chatInvariant, hc, List.any_eq_true] at hinv
          obtain ⟨c, hcm, hcid⟩ := hinv
          have hoc : ¬ (some other = some cid) := by simp [h]
          simp only [applyOp, deleteConversation, hc]
          rw [if_neg hoc]
          simp only [chatInvariant]
          refine List.any_eq_true.mpr ⟨c, List.mem_filter.mpr ⟨hcm, ?_⟩, hcid⟩
          simp only [decide_eq_true_eq] at hcid ⊢
          rw [hcid]
          exact h
  | send cr chr rr hr =>
    by_cases hg : jsTrim s.input = "" ∨ s.loading = true
    · simpa [applyOp, handleSubmit, hg] using hinv
    · cases hc : s.currentConvId with
      | none =>
        cases cr with
        | error e => simpa [applyOp, handleSubmit, hg, hc] using hinv
        | ok conv =>
          cases chr with
          | error e2 =>
            simp [applyOp, handleSubmit, hg, hc, submitSend, optimisticState,
              chatInvariant]
          | ok r =>
            cases rr with
            | error e3 =>
              simp [applyOp, handleSubmit, hg, hc, submitSend, optimisticState,
                loadConversationsClosure, chatInvariant]
            | ok convs =>
              cases convs with
              | nil =>
                simp_all [applyOp, handleSubmit, hg, hc, submitSend, optimisticState,
                  loadConversationsClosure, chatInvariant, opPre, effectiveConvId]
              | cons c2 rest =>
                cases hr <;>
                  simp [applyOp, handleSubmit, hg, hc, submitSend, optimisticState,
                    loadConversationsClosure, selectConversation, chatInvariant]
      | some cid =>
        cases chr with
        | error e2 =>
          simp_all [applyOp, handleSubmit, hg, hc, submitSend, optimisticState,
            chatInvariant]
        | ok r =>
          cases rr with
          | error e3 =>
            simp_all [applyOp, handleSubmit, hg, hc, submitSend, optimisticState,
              loadConversationsClosure, chatInvariant]
          | ok convs =>
            cases convs <;>
              simp_all [applyOp, handleSubmit, hg, hc, submitSend, optimisticState,
                loadConversationsClosure, chatInvariant, opPre, effectiveConvId]

/-- Witness for C9: the preservation theorem applied to the deletion of the
only conversation of a session. -/
theorem chat_invariant_preserved_witness :
    chatInvariant (applyOp chatWithOne (ChatOp.del 1 (.ok ()))) = true :=
  chat_invariant_preserved chatWithOne (ChatOp.del 1 (.ok ())) (by decide) (by decide)

end NyosApr
